import Mathlib

/-!
Shallow embedding of the chatbot flow studio (`src/studio/src/pages/Index.tsx`,
the `SettingsTab` component, and the `types/chatbot.ts` data model) together
with theorems settling the specification claims about it.

JavaScript conventions are translated as follows: a value that may be
`undefined`/`null` becomes an `Option`; string truthiness (`if (s)`,
`a || b`) is made explicit with `optStr`/`strOr` (the empty string is the
only falsy string); machine behaviour of React `useState` setters inside one
event handler is modelled by explicit state passing, and a `useCallback`
closure that reads `nodes`/`edges` captured at render time (as
`saveToHistory` does) receives those captured values as arguments.
-/

/-- Canvas coordinates, the `{ x, y }` position objects of reactflow. -/
structure XYPosition where
  x : Int
  y : Int
deriving DecidableEq

/-- `RouteConfig` from `types/chatbot.ts`: `id`, `pattern`, `isRegex`,
optional `connectedTo` target template id. -/
structure RouteConfig where
  id : String
  pattern : String
  isRegex : Bool
  connectedTo : Option String
deriving DecidableEq

/-- `HookConfig` from `types/chatbot.ts`: a hook kind tag, a dotted path and
optional parameters (an inert record, modelled as key/value pairs). -/
structure HookConfig where
  type : String
  path : String
  params : Option (List (String × String))
deriving DecidableEq

/-- `TemplateSettings` from `types/chatbot.ts`; every field is optional. -/
structure TemplateSettings where
  ack : Option Bool
  authenticated : Option Bool
  checkpoint : Option Bool
  prop : Option String
  session : Option Bool
  typing : Option Bool
  replyMsgId : Option String
  isStart : Option Bool
  isReport : Option Bool
  trigger : Option String
  react : Option String
  message_level : Option String
  next_level : Option String
  delay_time : Option String
deriving DecidableEq

/-- The empty settings object `{}` (all fields absent). -/
def TemplateSettings.empty : TemplateSettings :=
  ⟨none, none, none, none, none, none, none, none, none, none, none, none, none, none⟩

/-- The `MessageConfig` union of `types/chatbot.ts` (a plain string or a
structured interactive payload).  The claims treat the message as inert
data that is carried through unchanged, so the union is abstracted to two
representative constructors. -/
inductive MessageConfig where
  | plain (text : String)
  | interactive (body : String) (title : Option String) (footer : Option String)
deriving DecidableEq

/-- `ChatbotTemplate` from `types/chatbot.ts`.  The `TemplateType` and
`handleOrientation` string-literal unions are modelled as strings. -/
structure ChatbotTemplate where
  id : String
  name : String
  type : String
  message : MessageConfig
  routes : List RouteConfig
  hooks : Option (List HookConfig)
  settings : Option TemplateSettings
  position : Option XYPosition
  parentId : Option String
  handleOrientation : Option String
deriving DecidableEq

/-- `ChatbotFlow` from `types/chatbot.ts`: `{ templates, version? }`. -/
structure ChatbotFlow where
  templates : List ChatbotTemplate
  version : Option String
deriving DecidableEq

/-- One entry of the multi-chatbot wrapper shape
`{chatbots: [{name, templates}], version}`. -/
structure ChatbotEntry where
  name : String
  templates : List ChatbotTemplate
deriving DecidableEq

/-- Shape-sniffing view of a parsed `flow_json` value: whether it carries a
`chatbots` array, a `templates` array, and a `version` string.  This is the
projection of an arbitrary parsed JSON value onto the three fields the code
inspects (`flowData.chatbots && Array.isArray(...)`,
`flowData.templates && Array.isArray(...)`, `flowData.version`). -/
structure FlowJsonValue where
  chatbots : Option (List ChatbotEntry)
  templates : Option (List ChatbotTemplate)
  version : Option String
deriving DecidableEq

/-- A reactflow node as built by Index.tsx: `{ id, type, position, data }`. -/
structure FlowNode where
  id : String
  type : String
  position : XYPosition
  data : ChatbotTemplate
deriving DecidableEq

/-- A reactflow edge as built by Index.tsx; `data: {isRegex, edgeType}` is
flattened into the two `data*` fields. -/
structure FlowEdge where
  id : String
  source : String
  sourceHandle : Option String
  target : String
  targetHandle : Option String
  type : String
  animated : Bool
  label : String
  dataIsRegex : Bool
  dataEdgeType : String
deriving DecidableEq

/-- A reactflow `Connection` as received by `onConnect`; `null` handles are
`none`, and a `null` source/target is modelled by the empty string (the
code only guards them with JS truthiness, `params.source && params.target`). -/
structure Connection where
  source : String
  sourceHandle : Option String
  target : String
  targetHandle : Option String
deriving DecidableEq

/-- JS string coercion of a nullable string: `null` and `""` are falsy. -/
def optStr (o : Option String) : String :=
  match o with
  | none => ""
  | some s => s

/-- JS `a || b` on strings: `b` when `a` is the empty string. -/
def strOr (a b : String) : String :=
  if a = "" then b else a

/-- Toast notifications surfaced by the editor (`sonner`). -/
inductive Toast where
  | success (msg : String)
  | error (msg : String)
  | info (msg : String)
  | warning (msg : String)
deriving DecidableEq

/-- One undo/redo history entry: a `{ nodes, edges }` snapshot. -/
structure Snapshot where
  nodes : List FlowNode
  edges : List FlowEdge
deriving DecidableEq

/-- The React state of the `Index` component that the claims are about. -/
structure EditorState where
  nodes : List FlowNode
  edges : List FlowEdge
  selectedTemplate : Option ChatbotTemplate
  history : List Snapshot
  historyIndex : Int
  isSaving : Bool
deriving DecidableEq

/-- The initial state of the `Index` component: empty canvas, empty history,
`historyIndex = -1`, not saving. -/
def initState : EditorState :=
  { nodes := [], edges := [], selectedTemplate := none,
    history := [], historyIndex := -1, isSaving := false }

/-- `saveToHistory` from Index.tsx.  `snapNodes`/`snapEdges` are the `nodes`
and `edges` captured by the `useCallback` closure at render time (the
snapshot pushed is the pre-event state, not the freshly set one):
`newHistory = history.slice(0, historyIndex + 1); newHistory.push(...)`. -/
def saveToHistory (snapNodes : List FlowNode) (snapEdges : List FlowEdge)
    (st : EditorState) : EditorState :=
  let newHistory := st.history.take (st.historyIndex + 1).toNat ++ [⟨snapNodes, snapEdges⟩]
  { st with history := newHistory, historyIndex := (newHistory.length : Int) - 1 }

/- ### SettingsTab (`handleStartToggle` / `handleReportToggle`) -/

/-- `handleStartToggle` from the `SettingsTab` component: spreads
`template.settings || {}`, sets `isStart := checked` and
`isReport := checked ? false : (settings.isReport ?? false)`. -/
def handleStartToggle (checked : Bool) (template : ChatbotTemplate) : ChatbotTemplate :=
  let s := template.settings.getD TemplateSettings.empty
  { template with
    settings := some { s with
      isStart := some checked,
      isReport := some (if checked then false else s.isReport.getD false) } }

/-- `handleReportToggle` from the `SettingsTab` component: spreads
`template.settings || {}`, sets `isReport := checked` and
`isStart := checked ? false : (settings.isStart ?? false)`. -/
def handleReportToggle (checked : Bool) (template : ChatbotTemplate) : ChatbotTemplate :=
  let s := template.settings.getD TemplateSettings.empty
  { template with
    settings := some { s with
      isReport := some checked,
      isStart := some (if checked then false else s.isStart.getD false) } }

/-- Whether a template currently has a truthy `isStart` flag. -/
def startFlag (t : ChatbotTemplate) : Bool :=
  ((t.settings.getD TemplateSettings.empty).isStart).getD false

/-- Whether a template currently has a truthy `isReport` flag. -/
def reportFlag (t : ChatbotTemplate) : Bool :=
  ((t.settings.getD TemplateSettings.empty).isReport).getD false

/-- C4: `handleStartToggle true` sets `settings.isStart` to `true` and forces
`settings.isReport` to `false` on the same template; `handleReportToggle true`
sets `settings.isReport` to `true` and forces `settings.isStart` to `false`;
and after either toggle, with either boolean argument, the template never has
both flags true. -/
theorem spec_C4 (t : ChatbotTemplate) (b : Bool) :
    startFlag (handleStartToggle true t) = true ∧
    reportFlag (handleStartToggle true t) = false ∧
    reportFlag (handleReportToggle true t) = true ∧
    startFlag (handleReportToggle true t) = false ∧
    ¬(startFlag (handleStartToggle b t) = true ∧ reportFlag (handleStartToggle b t) = true) ∧
    ¬(startFlag (handleReportToggle b t) = true ∧ reportFlag (handleReportToggle b t) = true) := by
  cases b <;>
    simp [handleStartToggle, handleReportToggle, startFlag, reportFlag]

/- ### Flow document <-> canvas conversion -/

/-- Edge label derivation shared by the load effect, `handleFileImport` and
`onConnect`: `route.pattern ? (route.isRegex && route.pattern === ".*" ? "any"
: route.pattern) : ""`. -/
def routeLabel (pattern : String) (isRegex : Bool) : String :=
  if pattern ≠ "" then (if isRegex ∧ pattern = ".*" then "any" else pattern) else ""

/-- The edge built for a route with a truthy `connectedTo`, as in the load
effect and `handleFileImport`. -/
def routeEdge (templateId : String) (route : RouteConfig) (target : String)
    (edgeType : String) : FlowEdge :=
  { id := "e" ++ templateId ++ "-" ++ route.id ++ "-" ++ target,
    source := templateId,
    sourceHandle := some route.id,
    target := target,
    targetHandle := none,
    type := edgeType,
    animated := true,
    label := routeLabel route.pattern route.isRegex,
    dataIsRegex := route.isRegex,
    dataEdgeType := edgeType }

/-- Edge reconstruction from route connections (the
`flow.templates.forEach(template => template.routes?.forEach(route => if
(route.connectedTo) ...))` loop of the load effect and `handleFileImport`).
A `connectedTo` that is absent or the empty string is falsy and skipped. -/
def edgesFromTemplates (templates : List ChatbotTemplate) (edgeType : String) :
    List FlowEdge :=
  (templates.map (fun template =>
    template.routes.filterMap (fun route =>
      match route.connectedTo with
      | some target => if target ≠ "" then some (routeEdge template.id route target edgeType) else none
      | none => none))).flatten

/-- Node construction from a template (the `flow.templates.map` of the load
effect and `handleFileImport`): `{ id: template.id, type: "template",
position: template.position || {x: 0, y: 0}, data: template }`. -/
def templateToNode (template : ChatbotTemplate) : FlowNode :=
  { id := template.id, type := "template",
    position := template.position.getD ⟨0, 0⟩, data := template }

/-- Template serialization of a node, as in `exportFlow` and
`getCurrentFlowJson`: `{ ...node.data, position: node.position }`. -/
def nodeToTemplate (node : FlowNode) : ChatbotTemplate :=
  { node.data with position := some node.position }

/-- The templates serialized from the current canvas
(`nodes.map(node => ({...node.data, position: node.position}))`). -/
def currentTemplates (nodes : List FlowNode) : List ChatbotTemplate :=
  nodes.map nodeToTemplate

/-- `exportFlow` from Index.tsx, the `ChatbotFlow` document it serializes to
the downloaded file: `{ templates: nodes.map(...), version: "1.0" }`. -/
def exportFlow (nodes : List FlowNode) : ChatbotFlow :=
  { templates := currentTemplates nodes, version := some "1.0" }

/-- The shape-sniffing view of the JSON text produced by serializing a
`ChatbotFlow` document: it has a `templates` array and a `version`, and no
`chatbots` array. -/
def flowToJson (flow : ChatbotFlow) : FlowJsonValue :=
  { chatbots := none, templates := some flow.templates, version := flow.version }

/- ### handleFileImport -/

/-- `handleFileImport` from Index.tsx, applied to the parsed content of the
chosen file.  `content = none` models a file on which `JSON.parse` throws;
`some v` with `v.templates = none` makes `flow.templates.map` throw; both
land in the `catch` block, which only emits the error toast.  On success the
new nodes and edges are set and `saveToHistory` pushes the snapshot captured
by its closure (the pre-import `nodes`/`edges`). -/
def handleFileImport (content : Option FlowJsonValue) (edgeType : String)
    (st : EditorState) : EditorState × List Toast :=
  match content with
  | none => (st, [Toast.error "Failed to import flow"])
  | some v =>
    match v.templates with
    | none => (st, [Toast.error "Failed to import flow"])
    | some templates =>
      let newNodes := templates.map templateToNode
      let newEdges := edgesFromTemplates templates edgeType
      let st1 := saveToHistory st.nodes st.edges
        { st with nodes := newNodes, edges := newEdges }
      (st1, [Toast.success "Flow imported successfully"])

/- ### Undo / redo -/

/-- JS array indexing `history[i]` with an `Int` index: out-of-range and
negative indices yield `undefined` (`none`). -/
def getSnap (history : List Snapshot) (i : Int) : Option Snapshot :=
  if i < 0 then none else history.get? i.toNat

/-- `handleUndo` from Index.tsx.  When `history[historyIndex - 1]` is
`undefined`, `prevState.nodes` throws before any setter runs, so the
observable state is unchanged. -/
def handleUndo (st : EditorState) : EditorState :=
  if st.historyIndex > 0 then
    match getSnap st.history (st.historyIndex - 1) with
    | some prevState =>
      { st with nodes := prevState.nodes, edges := prevState.edges,
                historyIndex := st.historyIndex - 1 }
    | none => st
  else st

/-- `handleRedo` from Index.tsx.  When `history[historyIndex + 1]` is
`undefined`, `nextState.nodes` throws before any setter runs, so the
observable state is unchanged. -/
def handleRedo (st : EditorState) : EditorState :=
  if st.historyIndex < (st.history.length : Int) - 1 then
    match getSnap st.history (st.historyIndex + 1) with
    | some nextState =>
      { st with nodes := nextState.nodes, edges := nextState.edges,
                historyIndex := st.historyIndex + 1 }
    | none => st
  else st

/- ### Sample data used by concrete witnesses and counterexamples -/

/-- A minimal concrete template, as `addTemplate("text")` would create it. -/
def sampleTemplate : ChatbotTemplate :=
  { id := "t1", name := "t1", type := "text", message := MessageConfig.plain "",
    routes := [], hooks := none, settings := none, position := none,
    parentId := none, handleOrientation := none }

/-- A concrete canvas node holding `sampleTemplate`. -/
def sampleNode : FlowNode :=
  { id := "t1", type := "template", position := ⟨0, 0⟩, data := sampleTemplate }

/- ### C3: undo followed by redo -/

/-- An editor state whose live `nodes` differ from the snapshot stored at
`history[historyIndex]`: exactly what every mutating handler leaves behind,
since `saveToHistory` pushes the render-time (pre-event) snapshot. -/
def staleHistoryState : EditorState :=
  { nodes := [sampleNode], edges := [], selectedTemplate := none,
    history := [⟨[], []⟩, ⟨[], []⟩], historyIndex := 1, isSaving := false }

/-- C3 counterexample: a history stack and a `historyIndex` greater than 0 on
which `handleUndo` followed by `handleRedo` does not restore the `nodes`
array: redo restores the snapshot stored at `history[historyIndex]`, which
need not equal the live nodes. -/
theorem spec_C3_counterexample :
    0 < staleHistoryState.historyIndex ∧
    (handleRedo (handleUndo staleHistoryState)).nodes ≠ staleHistoryState.nodes := by
  decide

/-- C3 (amended): when additionally `historyIndex < history.length` and the
live `nodes`/`edges` equal the snapshot stored at `history[historyIndex]`,
`handleUndo` followed by `handleRedo` restores the entire state exactly, in
particular the nodes array, the edges array and `historyIndex`. -/
theorem spec_C3 (st : EditorState)
    (h1 : 0 < st.historyIndex)
    (h2 : st.historyIndex < (st.history.length : Int))
    (h3 : getSnap st.history st.historyIndex = some ⟨st.nodes, st.edges⟩) :
    handleRedo (handleUndo st) = st := by
  have hnonneg : 0 ≤ st.historyIndex - 1 := by omega
  have hlt : (st.historyIndex - 1).toNat < st.history.length := by omega
  have hneg : ¬ st.historyIndex - 1 < 0 := by omega
  obtain ⟨prev, hprev⟩ : ∃ p, getSnap st.history (st.historyIndex - 1) = some p := by
    refine ⟨st.history.get ⟨(st.historyIndex - 1).toNat, hlt⟩, ?_⟩
    simp [getSnap, hneg, List.get?_eq_get hlt]
  have hundo : handleUndo st =
      { st with nodes := prev.nodes, edges := prev.edges,
                historyIndex := st.historyIndex - 1 } := by
    simp [handleUndo, h1, hprev]
  rw [hundo]
  have hredo_guard : st.historyIndex - 1 < (st.history.length : Int) - 1 := by omega
  have hsnap : getSnap st.history (st.historyIndex - 1 + 1) = some ⟨st.nodes, st.edges⟩ := by
    have : st.historyIndex - 1 + 1 = st.historyIndex := by omega
    rw [this]; exact h3
  simp only [handleRedo, hredo_guard, if_pos, hsnap]
  have : st.historyIndex - 1 + 1 = st.historyIndex := by omega
  cases st
  simp_all

/-- An in-sync editor state: the live canvas equals the snapshot at the
history pointer. -/
def syncedHistoryState : EditorState :=
  { nodes := [sampleNode], edges := [], selectedTemplate := none,
    history := [⟨[], []⟩, ⟨[sampleNode], []⟩], historyIndex := 1, isSaving := false }

/-- C3 witness: the amended statement applied to a concrete in-sync state. -/
theorem spec_C3_witness :
    0 < syncedHistoryState.historyIndex ∧
    syncedHistoryState.historyIndex < (syncedHistoryState.history.length : Int) ∧
    handleRedo (handleUndo syncedHistoryState) = syncedHistoryState :=
  ⟨by decide, by decide, spec_C3 syncedHistoryState (by decide) (by decide) (by decide)⟩

/- ### C2: malformed import leaves state unchanged -/

/-- C2: when the file content is not parseable JSON (`JSON.parse` throws) or
the parsed value has no `templates` array (so `flow.templates.map` throws),
`handleFileImport` returns the state completely unchanged — in particular
`nodes`, `edges`, `history` and `historyIndex` — and surfaces exactly the
"Failed to import flow" error toast. -/
theorem spec_C2 (content : Option FlowJsonValue) (edgeType : String) (st : EditorState)
    (h : content = none ∨ ∃ v, content = some v ∧ v.templates = none) :
    handleFileImport content edgeType st = (st, [Toast.error "Failed to import flow"]) := by
  rcases h with h | ⟨v, hv, ht⟩
  · subst h; rfl
  · subst hv
    simp [handleFileImport, ht]

/-- C2 witness: importing unparseable content over the initial state. -/
theorem spec_C2_witness :
    ((none : Option FlowJsonValue) = none ∨
      ∃ v, (none : Option FlowJsonValue) = some v ∧ v.templates = none) ∧
    handleFileImport none "default" initState
      = (initState, [Toast.error "Failed to import flow"]) :=
  ⟨Or.inl rfl, spec_C2 none "default" initState (Or.inl rfl)⟩

/- ### C1: export then import round trip -/

/-- A node is in canvas normal form when it is just a template with its
position: Index.tsx always builds nodes with `type: "template"`, with the
node id equal to the template id, and the serialized template position in
sync with the node position. -/
def canvasNormal (n : FlowNode) : Prop :=
  n.type = "template" ∧ n.data.id = n.id ∧ n.data.position = some n.position

/-- Serializing a canvas-normal node yields exactly its template data. -/
theorem nodeToTemplate_eq_data (n : FlowNode) (h : n.data.position = some n.position) :
    nodeToTemplate n = n.data := by
  obtain ⟨nid, nty, npos, d⟩ := n
  obtain ⟨_, _, _, _, _, _, _, _, _, _⟩ := d
  simp only [nodeToTemplate] at *
  simp_all

/-- Serializing then re-importing a canvas-normal node is the identity. -/
theorem templateToNode_nodeToTemplate (n : FlowNode) (h : canvasNormal n) :
    templateToNode (nodeToTemplate n) = n := by
  obtain ⟨hty, hid, hpos⟩ := h
  rw [nodeToTemplate_eq_data n hpos]
  obtain ⟨nid, nty, npos, d⟩ := n
  simp only at hty hid hpos
  subst hty hid
  obtain ⟨_, _, _, _, _, _, _, _, _, _⟩ := d
  simp only [templateToNode] at *
  simp_all

/-- On a canvas-normal node list, serialization is plain data projection. -/
theorem currentTemplates_eq_data (nodes : List FlowNode)
    (hw : ∀ n ∈ nodes, canvasNormal n) :
    currentTemplates nodes = nodes.map FlowNode.data := by
  induction nodes with
  | nil => rfl
  | cons n ns ih =>
    have hn := hw n (List.mem_cons_self n ns)
    simp only [currentTemplates, List.map_cons] at *
    rw [nodeToTemplate_eq_data n hn.2.2, ih (fun m hm => hw m (List.mem_cons_of_mem n hm))]

/-- C1: exporting the canvas with `exportFlow` and importing the produced
document with `handleFileImport` yields exactly the same node set (hence the
same ids, types, positions and template data) and exactly the edge set
reconstructed from the templates' routes (hence the same source,
`sourceHandle`, target and label for every route with a truthy
`connectedTo`). -/
theorem spec_C1 (nodes : List FlowNode) (edgeType : String) (st : EditorState)
    (hw : ∀ n ∈ nodes, canvasNormal n) :
    (handleFileImport (some (flowToJson (exportFlow nodes))) edgeType st).1.nodes = nodes ∧
    (handleFileImport (some (flowToJson (exportFlow nodes))) edgeType st).1.edges
      = edgesFromTemplates (nodes.map FlowNode.data) edgeType := by
  constructor
  · simp only [handleFileImport, flowToJson, exportFlow, saveToHistory]
    induction nodes with
    | nil => rfl
    | cons n ns ih =>
      have hn := hw n (List.mem_cons_self n ns)
      simp only [currentTemplates, List.map_cons] at *
      rw [templateToNode_nodeToTemplate n hn]
      have := ih (fun m hm => hw m (List.mem_cons_of_mem n hm))
      simp_all
  · simp only [handleFileImport, flowToJson, exportFlow, saveToHistory]
    rw [currentTemplates_eq_data nodes hw]

/-- C1 witness: round-tripping a one-node canvas with a connected route. -/
def routedTemplate : ChatbotTemplate :=
  { sampleTemplate with
    routes := [⟨"r1", "hi", false, some "t2"⟩],
    position := some ⟨3, 4⟩ }

/-- A canvas-normal node holding `routedTemplate`. -/
def routedNode : FlowNode :=
  { id := "t1", type := "template", position := ⟨3, 4⟩, data := routedTemplate }

/-- C1 witness: the round trip applied to the concrete one-node canvas. -/
theorem spec_C1_witness :
    (∀ n ∈ [routedNode], canvasNormal n) ∧
    (handleFileImport (some (flowToJson (exportFlow [routedNode]))) "default" initState).1.nodes
      = [routedNode] ∧
    (handleFileImport (some (flowToJson (exportFlow [routedNode]))) "default" initState).1.edges
      = edgesFromTemplates ([routedNode].map FlowNode.data) "default" := by
  have hw : ∀ n ∈ [routedNode], canvasNormal n := by
    intro n hn
    simp only [List.mem_singleton] at hn
    subst hn
    exact ⟨rfl, rfl, rfl⟩
  exact ⟨hw, spec_C1 [routedNode] "default" initState hw⟩

/- ### C5: onEdgesDelete / onConnect route mutation -/

/-- The route updater of `onEdgesDelete`: the route whose `id` equals the
deleted edge's `sourceHandle` gets `connectedTo` set to `undefined`. -/
def deleteEdgeRouteUpdate (e : FlowEdge) (route : RouteConfig) : RouteConfig :=
  if some route.id = e.sourceHandle then { route with connectedTo := none } else route

/-- The per-node `setNodes` updater of `onEdgesDelete`: only the node whose
`id` equals the edge's `source` has its routes rewritten. -/
def deleteEdgeNodeUpdate (e : FlowEdge) (node : FlowNode) : FlowNode :=
  if node.id = e.source then
    { node with data :=
      { node.data with routes := node.data.routes.map (deleteEdgeRouteUpdate e) } }
  else node

/-- `onEdgesDelete` from Index.tsx: one functional `setNodes` update per
deleted edge, then `saveToHistory` pushes the render-time snapshot. -/
def onEdgesDelete (edgesToDelete : List FlowEdge) (st : EditorState) : EditorState :=
  let newNodes := edgesToDelete.foldl (fun nds e => nds.map (deleteEdgeNodeUpdate e)) st.nodes
  saveToHistory st.nodes st.edges { st with nodes := newNodes }

/-- The fresh route created by `onConnect` when connecting from the default
handle of a node without routes; `now` is `Date.now()`. -/
def freshRoute (now : Nat) (target : String) : RouteConfig :=
  { id := "route-" ++ toString now, pattern := "", isRegex := false,
    connectedTo := some target }

/-- The route updater of `onConnect`: the route whose `id` equals the
resolved source handle gets `connectedTo` set to the connection target. -/
def connectRouteUpdate (sourceHandle target : String) (route : RouteConfig) : RouteConfig :=
  if route.id = sourceHandle then { route with connectedTo := some target } else route

/-- The per-node `setNodes` updater of `onConnect`: on the source node,
either a fresh route is created (default handle, no routes) or the matching
route's `connectedTo` is updated. -/
def connectNodeUpdate (params : Connection) (now : Nat) (node : FlowNode) : FlowNode :=
  let sourceHandle := strOr (optStr params.sourceHandle) "default"
  if node.id = params.source then
    if sourceHandle = "default" ∧ node.data.routes = [] then
      { node with data := { node.data with routes := [freshRoute now params.target] } }
    else
      { node with data :=
        { node.data with routes :=
            node.data.routes.map (connectRouteUpdate sourceHandle params.target) } }
  else node

/-- The `setNodes` updater of `onConnect` from Index.tsx, guarded by
`if (params.source && params.target)`; the edge-array update and edge label
computation of `onConnect` are not needed by the claims settled here. -/
def onConnectNodes (params : Connection) (now : Nat) (nodes : List FlowNode) :
    List FlowNode :=
  if params.source ≠ "" ∧ params.target ≠ "" then
    nodes.map (connectNodeUpdate params now)
  else nodes

/-- C5: deleting an edge via `onEdgesDelete` clears `connectedTo` on exactly
the routes of the edge's source node whose `id` equals the edge's
`sourceHandle`, leaving every other route, every other field of the affected
template and every other node unchanged; and `onConnect` (when a route with
the resolved source-handle id exists on the source node) sets exactly that
route's `connectedTo` to the connection target with the same frame
conditions. -/
theorem spec_C5 (e : FlowEdge) (st : EditorState) (r : RouteConfig) (n : FlowNode)
    (params : Connection) (now : Nat) (m : FlowNode)
    (hs : params.source ≠ "") (ht : params.target ≠ "")
    (hm : ∃ r0 ∈ m.data.routes, r0.id = strOr (optStr params.sourceHandle) "default") :
    (onEdgesDelete [e] st).nodes = st.nodes.map (deleteEdgeNodeUpdate e) ∧
    (some r.id = e.sourceHandle →
      deleteEdgeRouteUpdate e r = { r with connectedTo := none }) ∧
    (some r.id ≠ e.sourceHandle → deleteEdgeRouteUpdate e r = r) ∧
    (n.id = e.source → deleteEdgeNodeUpdate e n =
      { n with data :=
        { n.data with routes := n.data.routes.map (deleteEdgeRouteUpdate e) } }) ∧
    (n.id ≠ e.source → deleteEdgeNodeUpdate e n = n) ∧
    onConnectNodes params now st.nodes = st.nodes.map (connectNodeUpdate params now) ∧
    (r.id = strOr (optStr params.sourceHandle) "default" →
      connectRouteUpdate (strOr (optStr params.sourceHandle) "default") params.target r
        = { r with connectedTo := some params.target }) ∧
    (r.id ≠ strOr (optStr params.sourceHandle) "default" →
      connectRouteUpdate (strOr (optStr params.sourceHandle) "default") params.target r = r) ∧
    (m.id = params.source → connectNodeUpdate params now m =
      { m with data := { m.data with routes := m.data.routes.map (connectRouteUpdate (strOr (optStr params.sourceHandle) "default") params.target) } }) ∧
    (m.id ≠ params.source → connectNodeUpdate params now m = m) := by
  obtain ⟨r0, hr0mem, hr0⟩ := hm
  have hroutes : m.data.routes ≠ [] := by
    intro hnil
    rw [hnil] at hr0mem
    exact absurd hr0mem (List.not_mem_nil r0)
  refine ⟨?_, ?_, ?_, ?_, ?_, ?_, ?_, ?_, ?_, ?_⟩
  · simp [onEdgesDelete, saveToHistory]
  · intro h; simp [deleteEdgeRouteUpdate, h]
  · intro h; simp [deleteEdgeRouteUpdate, h]
  · intro h; simp [deleteEdgeNodeUpdate, h]
  · intro h; simp [deleteEdgeNodeUpdate, h]
  · simp [onConnectNodes, hs, ht]
  · intro h; simp [connectRouteUpdate, h]
  · intro h; simp [connectRouteUpdate, h]
  · intro h; simp [connectNodeUpdate, h, hroutes]
  · intro h; simp [connectNodeUpdate, h]

/-- The edge that the load effect derives for `routedTemplate`'s route. -/
def sampleEdge : FlowEdge :=
  { id := "et1-r1-t2", source := "t1", sourceHandle := some "r1", target := "t2",
    targetHandle := none, type := "default", animated := true, label := "hi",
    dataIsRegex := false, dataEdgeType := "default" }

/-- A concrete connection re-targeting `routedTemplate`'s route `r1` to `t3`. -/
def sampleConnection : Connection :=
  { source := "t1", sourceHandle := some "r1", target := "t3", targetHandle := none }

/-- A concrete editor state whose canvas holds the routed node. -/
def routedState : EditorState :=
  { initState with nodes := [routedNode], edges := [sampleEdge] }

/-- C5 witness: the frame theorem applied to the concrete routed canvas. -/
theorem spec_C5_witness :
    sampleConnection.source ≠ "" ∧
    sampleConnection.target ≠ "" ∧
    (∃ r0 ∈ routedNode.data.routes,
      r0.id = strOr (optStr sampleConnection.sourceHandle) "default") ∧
    ((onEdgesDelete [sampleEdge] routedState).nodes
        = routedState.nodes.map (deleteEdgeNodeUpdate sampleEdge) ∧
      (some (⟨"r1", "hi", false, some "t2"⟩ : RouteConfig).id = sampleEdge.sourceHandle →
        deleteEdgeRouteUpdate sampleEdge ⟨"r1", "hi", false, some "t2"⟩
          = { (⟨"r1", "hi", false, some "t2"⟩ : RouteConfig) with connectedTo := none }) ∧
      (some (⟨"r1", "hi", false, some "t2"⟩ : RouteConfig).id ≠ sampleEdge.sourceHandle →
        deleteEdgeRouteUpdate sampleEdge ⟨"r1", "hi", false, some "t2"⟩
          = ⟨"r1", "hi", false, some "t2"⟩) ∧
      (routedNode.id = sampleEdge.source → deleteEdgeNodeUpdate sampleEdge routedNode
        = { routedNode with data := { routedNode.data with routes := routedNode.data.routes.map (deleteEdgeRouteUpdate sampleEdge) } }) ∧
      (routedNode.id ≠ sampleEdge.source →
        deleteEdgeNodeUpdate sampleEdge routedNode = routedNode) ∧
      onConnectNodes sampleConnection 7 routedState.nodes
        = routedState.nodes.map (connectNodeUpdate sampleConnection 7) ∧
      ((⟨"r1", "hi", false, some "t2"⟩ : RouteConfig).id
          = strOr (optStr sampleConnection.sourceHandle) "default" →
        connectRouteUpdate (strOr (optStr sampleConnection.sourceHandle) "default")
            sampleConnection.target ⟨"r1", "hi", false, some "t2"⟩
          = { (⟨"r1", "hi", false, some "t2"⟩ : RouteConfig) with connectedTo := some sampleConnection.target }) ∧
      ((⟨"r1", "hi", false, some "t2"⟩ : RouteConfig).id
          ≠ strOr (optStr sampleConnection.sourceHandle) "default" →
        connectRouteUpdate (strOr (optStr sampleConnection.sourceHandle) "default")
            sampleConnection.target ⟨"r1", "hi", false, some "t2"⟩
          = ⟨"r1", "hi", false, some "t2"⟩) ∧
      (routedNode.id = sampleConnection.source → connectNodeUpdate sampleConnection 7 routedNode
        = { routedNode with data := { routedNode.data with routes := routedNode.data.routes.map (connectRouteUpdate (strOr (optStr sampleConnection.sourceHandle) "default") sampleConnection.target) } }) ∧
      (routedNode.id ≠ sampleConnection.source →
        connectNodeUpdate sampleConnection 7 routedNode = routedNode)) :=
  ⟨by decide, by decide, by decide,
    spec_C5 sampleEdge routedState ⟨"r1", "hi", false, some "t2"⟩ routedNode
      sampleConnection 7 routedNode (by decide) (by decide) (by decide)⟩

/- ### C10: deleteTemplate -/

/-- `deleteTemplate` from Index.tsx: with a selected template, its node is
filtered out, every edge whose source or target is the selected id is
filtered out, the selection is cleared and `saveToHistory` pushes the
render-time snapshot; with no selection it returns early. -/
def deleteTemplate (st : EditorState) : EditorState :=
  match st.selectedTemplate with
  | none => st
  | some selectedTemplate =>
    saveToHistory st.nodes st.edges
      { st with
        nodes := st.nodes.filter (fun node => node.id ≠ selectedTemplate.id),
        edges := st.edges.filter (fun e =>
          e.source ≠ selectedTemplate.id ∧ e.target ≠ selectedTemplate.id),
        selectedTemplate := none }

/-- C10: with `sel` selected, `deleteTemplate` removes exactly `sel`'s node,
removes exactly the edges having `sel` as source or target — so no remaining
edge references the deleted node — and clears the selection. -/
theorem spec_C10 (st : EditorState) (sel : ChatbotTemplate)
    (h : st.selectedTemplate = some sel) :
    (deleteTemplate st).nodes = st.nodes.filter (fun node => node.id ≠ sel.id) ∧
    (deleteTemplate st).edges
      = st.edges.filter (fun e => e.source ≠ sel.id ∧ e.target ≠ sel.id) ∧
    (∀ n ∈ (deleteTemplate st).nodes, n.id ≠ sel.id) ∧
    (∀ e ∈ (deleteTemplate st).edges, e.source ≠ sel.id ∧ e.target ≠ sel.id) ∧
    (deleteTemplate st).selectedTemplate = none := by
  have hnodes : (deleteTemplate st).nodes
      = st.nodes.filter (fun node => node.id ≠ sel.id) := by
    simp only [deleteTemplate, h, saveToHistory]
  have hedges : (deleteTemplate st).edges
      = st.edges.filter (fun e => e.source ≠ sel.id ∧ e.target ≠ sel.id) := by
    simp only [deleteTemplate, h, saveToHistory]
  refine ⟨hnodes, hedges, ?_, ?_, ?_⟩
  · intro n hn
    rw [hnodes] at hn
    simp only [List.mem_filter, decide_eq_true_eq] at hn
    exact hn.2
  · intro e he
    rw [hedges] at he
    simp only [List.mem_filter, decide_eq_true_eq] at he
    exact he.2
  · simp only [deleteTemplate, h, saveToHistory]

/-- The editor state of `routedState` with the routed template selected. -/
def selectedState : EditorState :=
  { routedState with selectedTemplate := some routedTemplate }

/-- C10 witness: deleting the selected template from the concrete canvas. -/
theorem spec_C10_witness :
    selectedState.selectedTemplate = some routedTemplate ∧
    ((deleteTemplate selectedState).nodes
        = selectedState.nodes.filter (fun node => node.id ≠ routedTemplate.id) ∧
      (deleteTemplate selectedState).edges
        = selectedState.edges.filter (fun e =>
            e.source ≠ routedTemplate.id ∧ e.target ≠ routedTemplate.id) ∧
      (∀ n ∈ (deleteTemplate selectedState).nodes, n.id ≠ routedTemplate.id) ∧
      (∀ e ∈ (deleteTemplate selectedState).edges,
        e.source ≠ routedTemplate.id ∧ e.target ≠ routedTemplate.id) ∧
      (deleteTemplate selectedState).selectedTemplate = none) :=
  ⟨rfl, spec_C10 selectedState routedTemplate rfl⟩

/- ### Flow load effect and getCurrentFlowJson -/

/-- JS `Array.prototype.findIndex`, with `none` for `-1`. -/
def findIdxOpt (p : α → Bool) : List α → Option Nat
  | [] => none
  | x :: xs => if p x then some 0 else (findIdxOpt p xs).map (· + 1)

/-- In-place update of one array element, `arr[i] = f(arr[i])`. -/
def modifyAt (f : α → α) : Nat → List α → List α
  | _, [] => []
  | 0, x :: xs => f x :: xs
  | n + 1, x :: xs => x :: modifyAt f n xs

/-- The "update or add the specific chatbot" tail of `getCurrentFlowJson`:
with a truthy `flow` URL parameter, the chatbot found by case-insensitive
name gets the current templates (or a new entry is appended); otherwise the
first chatbot gets them (or a default entry is created). -/
def upsertChatbots (flowParam chatbotName : Option String)
    (current : List ChatbotTemplate) (bots : List ChatbotEntry) : List ChatbotEntry :=
  if optStr flowParam ≠ "" then
    match findIdxOpt
        (fun bot => bot.name.toLower == (optStr flowParam).toLower) bots with
    | some i => modifyAt (fun bot => { bot with templates := current }) i bots
    | none => bots ++ [⟨optStr flowParam, current⟩]
  else
    match bots with
    | [] => [⟨strOr (optStr chatbotName) "Default Bot", current⟩]
    | bot0 :: rest => { bot0 with templates := current } :: rest

/-- The fresh multi-chatbot document `getCurrentFlowJson` builds when there
is no usable existing `flow_json`: one chatbot named
`flowParam || chatbot_name || "Default Bot"` holding the current canvas
templates, version `"1.0"`. -/
def freshDefaultDoc (flowParam chatbotName : Option String)
    (current : List ChatbotTemplate) : FlowJsonValue :=
  { chatbots := some [⟨strOr (optStr flowParam) (strOr (optStr chatbotName) "Default Bot"), current⟩],
    templates := none, version := some "1.0" }

/-- `getCurrentFlowJson` from Index.tsx, as the shape view of the JSON text
it returns.  `flowJson = none` models a falsy `data?.flow_json`;
`some none` a `flow_json` on which `JSON.parse` throws.  An existing
multi-chatbot document is kept (so its other fields, including a missing
`version`, survive); an old single-flow document is converted; anything else
falls back to the fresh default document. -/
def getCurrentFlowJson (flowJson : Option (Option FlowJsonValue))
    (flowParam chatbotName : Option String) (nodes : List FlowNode) : FlowJsonValue :=
  let current := currentTemplates nodes
  match flowJson with
  | none => freshDefaultDoc flowParam chatbotName current
  | some none => freshDefaultDoc flowParam chatbotName current
  | some (some flowData) =>
    match flowData.chatbots with
    | some bots =>
      { flowData with chatbots := some (upsertChatbots flowParam chatbotName current bots) }
    | none =>
      match flowData.templates with
      | some ts =>
        { chatbots := some (upsertChatbots flowParam chatbotName current
            [⟨strOr (optStr chatbotName) "Default Bot", ts⟩]),
          templates := none,
          version := some (strOr (optStr flowData.version) "1.0") }
      | none => freshDefaultDoc flowParam chatbotName current

/-- The templates-to-canvas tail of the flow load effect: build nodes and
edges from the templates, set them, push the render-time snapshot to
history, and toast success with the selected bot name. -/
def loadTemplates (templates : List ChatbotTemplate) (selectedBotName : String)
    (edgeType : String) (st : EditorState) : EditorState × List Toast :=
  let newNodes := templates.map templateToNode
  let newEdges := edgesFromTemplates templates edgeType
  let st1 := saveToHistory st.nodes st.edges
    { st with nodes := newNodes, edges := newEdges }
  (st1, [Toast.success ("ChatBot flow \"" ++ selectedBotName ++ "\" loaded")])

/-- The flow-loading `useEffect` of Index.tsx (the `data && !isFlowLoaded`
branch), as a state transformer.  `flowJson = none` models a falsy
`data.flow_json`; `some none` a `flow_json` on which `JSON.parse` throws.
With a multi-chatbot document and an empty `chatbots` array, the JS code
throws on `flowData.chatbots[0].templates` before any setter runs, so the
observable state is returned unchanged with the toasts emitted up to that
point. -/
def loadFlowEffect (flowJson : Option (Option FlowJsonValue))
    (flowParam chatbotName : Option String) (edgeType : String)
    (st : EditorState) : EditorState × List Toast :=
  match flowJson with
  | none =>
    let st1 := saveToHistory st.nodes st.edges { st with nodes := [], edges := [] }
    (st1, [Toast.info ("New flow for \"" ++ chatbotName.getD "untitled" ++ "\". Start building!")])
  | some none => (st, [Toast.error "Failed to parse flow_json"])
  | some (some flowData) =>
    match flowData.chatbots with
    | some bots =>
      if optStr flowParam ≠ "" then
        match bots.find? (fun bot =>
            bot.name.toLower == (optStr flowParam).toLower) with
        | some foundBot => loadTemplates foundBot.templates foundBot.name edgeType st
        | none =>
          let warn := Toast.warning ("Chatbot \"" ++ optStr flowParam ++ "\" not found. Loading first chatbot.")
          match bots with
          | [] => (st, [warn])
          | bot0 :: _ =>
            let r := loadTemplates bot0.templates bot0.name edgeType st
            (r.1, warn :: r.2)
      else
        match bots with
        | [] => (st, [])
        | bot0 :: _ => loadTemplates bot0.templates bot0.name edgeType st
    | none =>
      match flowData.templates with
      | some ts => loadTemplates ts (chatbotName.getD "untitled") edgeType st
      | none => (st, [Toast.error "Invalid flow structure"])

/- ### saveCurrentFlowJson -/

/-- The observable outcome of one `saveCurrentFlowJson` call:
`stateDuring` is the state between `setIsSaving(true)` and the settling of
the `updateDoc` promise, `stateAfter` the state after the `finally` block,
`sentJson` the document handed to `updateDoc`, and `startedUpdate` whether
an `updateDoc` call was initiated at all. -/
structure SaveResult where
  stateDuring : EditorState
  stateAfter : EditorState
  sentJson : FlowJsonValue
  toasts : List Toast
  startedUpdate : Bool
deriving DecidableEq

/-- `saveCurrentFlowJson` from Index.tsx: unconditionally sets
`isSaving := true`, serializes the current flow, always initiates the
`updateDoc` call, toasts success or failure (`success` is whether the
backend update succeeded), and resets `isSaving := false` in `finally`. -/
def saveCurrentFlowJson (success : Bool) (flowJson : Option (Option FlowJsonValue))
    (flowParam chatbotName : Option String) (st : EditorState) : SaveResult :=
  let st1 := { st with isSaving := true }
  let sent := getCurrentFlowJson flowJson flowParam chatbotName st.nodes
  let flowName := strOr (optStr flowParam) (strOr (optStr chatbotName) "Default Bot")
  let toasts :=
    if success then [Toast.success ("Flow \"" ++ flowName ++ "\" saved!")]
    else [Toast.error ("Failed to save flow \"" ++ flowName ++ "\".")]
  { stateDuring := st1, stateAfter := { st1 with isSaving := false },
    sentJson := sent, toasts := toasts, startedUpdate := true }

/- ### C6: failed backend save -/

/-- C6: when the backend update fails, `saveCurrentFlowJson` leaves `nodes`,
`edges`, `history` and `historyIndex` unchanged, surfaces an error toast,
and resets `isSaving` to `false` in the `finally` block. -/
theorem spec_C6 (success : Bool) (flowJson : Option (Option FlowJsonValue))
    (flowParam chatbotName : Option String) (st : EditorState)
    (h : success = false) :
    (saveCurrentFlowJson success flowJson flowParam chatbotName st).stateAfter.nodes = st.nodes ∧
    (saveCurrentFlowJson success flowJson flowParam chatbotName st).stateAfter.edges = st.edges ∧
    (saveCurrentFlowJson success flowJson flowParam chatbotName st).stateAfter.history = st.history ∧
    (saveCurrentFlowJson success flowJson flowParam chatbotName st).stateAfter.historyIndex = st.historyIndex ∧
    (saveCurrentFlowJson success flowJson flowParam chatbotName st).stateAfter.isSaving = false ∧
    (∃ msg, Toast.error msg ∈ (saveCurrentFlowJson success flowJson flowParam chatbotName st).toasts) := by
  subst h
  refine ⟨rfl, rfl, rfl, rfl, rfl, ?_⟩
  exact ⟨"Failed to save flow \""
      ++ strOr (optStr flowParam) (strOr (optStr chatbotName) "Default Bot") ++ "\".",
    by simp [saveCurrentFlowJson]⟩

/-- C6 witness: a failing save over the concrete routed canvas. -/
theorem spec_C6_witness :
    (false = false) ∧
    ((saveCurrentFlowJson false none none none routedState).stateAfter.nodes = routedState.nodes ∧
      (saveCurrentFlowJson false none none none routedState).stateAfter.edges = routedState.edges ∧
      (saveCurrentFlowJson false none none none routedState).stateAfter.history = routedState.history ∧
      (saveCurrentFlowJson false none none none routedState).stateAfter.historyIndex = routedState.historyIndex ∧
      (saveCurrentFlowJson false none none none routedState).stateAfter.isSaving = false ∧
      (∃ msg, Toast.error msg ∈ (saveCurrentFlowJson false none none none routedState).toasts)) :=
  ⟨rfl, spec_C6 false none none none routedState rfl⟩

/- ### C8: no guard on save initiation -/

/-- An editor state with a save already in flight. -/
def busySaveState : EditorState := { initState with isSaving := true }

/-- C8 counterexample: invoking `saveCurrentFlowJson` while `isSaving` is
already `true` still initiates the `updateDoc` call — the flag is set and
reset but never consulted, so nothing prevents a second concurrent save. -/
theorem spec_C8_counterexample :
    busySaveState.isSaving = true ∧
    (saveCurrentFlowJson true none none none busySaveState).startedUpdate = true :=
  ⟨rfl, rfl⟩

/-- C8 (amended): `saveCurrentFlowJson` always initiates the backend update,
regardless of `isSaving`; the flag merely records an in-flight save (set to
`true` at initiation and reset to `false` on completion) and never guards
initiation. -/
theorem spec_C8 (success : Bool) (flowJson : Option (Option FlowJsonValue))
    (flowParam chatbotName : Option String) (st : EditorState) :
    (saveCurrentFlowJson success flowJson flowParam chatbotName st).startedUpdate = true ∧
    (saveCurrentFlowJson success flowJson flowParam chatbotName st).stateDuring.isSaving = true ∧
    (saveCurrentFlowJson success flowJson flowParam chatbotName st).stateAfter.isSaving = false :=
  ⟨rfl, rfl, rfl⟩

/- ### C7: unknown flow-document shapes -/

/-- A parsed value that is neither the multi-chatbot nor the single-flow
shape. -/
def unknownShape : FlowJsonValue := ⟨none, none, none⟩

/-- C7 counterexample: on an unknown document shape the load effect does not
construct a fresh default flow document — it emits the "Invalid flow
structure" error and leaves the state untouched, unlike the fresh-start path
taken for an absent `flow_json` (which resets the canvas and pushes a
history snapshot). -/
theorem spec_C7_counterexample :
    loadFlowEffect (some (some unknownShape)) none none "default" initState
      = (initState, [Toast.error "Invalid flow structure"]) ∧
    loadFlowEffect (some (some unknownShape)) none none "default" initState
      ≠ loadFlowEffect none none none "default" initState := by
  constructor
  · rfl
  · decide

/-- C7 (amended): for a persisted `flow_json` whose parsed value has neither
a `chatbots` array nor a `templates` array, serialization
(`getCurrentFlowJson`) falls back to the fresh default document holding the
current canvas, while loading surfaces the "Invalid flow structure" error
toast and leaves the canvas state unchanged (no fresh document is
constructed there). -/
theorem spec_C7 (v : FlowJsonValue) (flowParam chatbotName : Option String)
    (edgeType : String) (st : EditorState) (nodes : List FlowNode)
    (hc : v.chatbots = none) (ht : v.templates = none) :
    getCurrentFlowJson (some (some v)) flowParam chatbotName nodes
      = freshDefaultDoc flowParam chatbotName (currentTemplates nodes) ∧
    loadFlowEffect (some (some v)) flowParam chatbotName edgeType st
      = (st, [Toast.error "Invalid flow structure"]) := by
  constructor
  · simp [getCurrentFlowJson, hc, ht]
  · simp [loadFlowEffect, hc, ht]

/-- C7 witness: the amended statement at the concrete unknown shape. -/
theorem spec_C7_witness :
    unknownShape.chatbots = none ∧ unknownShape.templates = none ∧
    (getCurrentFlowJson (some (some unknownShape)) (some "bot") none [sampleNode]
        = freshDefaultDoc (some "bot") none (currentTemplates [sampleNode]) ∧
      loadFlowEffect (some (some unknownShape)) (some "bot") none "default" routedState
        = (routedState, [Toast.error "Invalid flow structure"])) :=
  ⟨rfl, rfl,
    spec_C7 unknownShape (some "bot") none "default" routedState [sampleNode] rfl rfl⟩

/- ### C9: getCurrentFlowJson always yields a usable wrapper -/

/-- Updating one array slot never empties a nonempty array. -/
theorem modifyAt_ne_nil (f : α → α) (i : Nat) (l : List α) (h : l ≠ []) :
    modifyAt f i l ≠ [] := by
  cases l with
  | nil => exact absurd rfl h
  | cons x xs => cases i <;> simp [modifyAt]

/-- A successful `findIndex` on the bot names means that after updating that
slot's templates, some entry matches the searched lower-cased name and holds
the new templates. -/
theorem upsert_found (q : String) (ts : List ChatbotTemplate) :
    ∀ (l : List ChatbotEntry) (i : Nat),
      findIdxOpt (fun bot => bot.name.toLower == q) l = some i →
      ∃ bot ∈ modifyAt (fun bot => { bot with templates := ts }) i l,
        bot.name.toLower = q ∧ bot.templates = ts := by
  intro l
  induction l with
  | nil => intro i h; simp [findIdxOpt] at h
  | cons x xs ih =>
    intro i h
    by_cases hx : x.name.toLower == q
    · simp only [findIdxOpt, hx, if_pos, Option.some.injEq] at h
      subst h
      refine ⟨{ x with templates := ts }, ?_, ?_, rfl⟩
      · simp [modifyAt]
      · simpa using eq_of_beq hx
    · simp only [findIdxOpt, hx, if_neg, Bool.false_eq_true, not_false_iff,
        Option.map_eq_some', ite_false] at h
      rcases h with ⟨j, hj, hji⟩
      subst hji
      obtain ⟨bot, hmem, hbot⟩ := ih j hj
      refine ⟨bot, ?_, hbot⟩
      simp [modifyAt, hmem]

/-- The "update or add" tail of `getCurrentFlowJson` always yields a
nonempty chatbot list in which the chatbot addressed by the `flow` URL
parameter (or the first one, without a parameter) holds the given current
templates. -/
theorem upsert_spec (flowParam chatbotName : Option String)
    (current : List ChatbotTemplate) (bots : List ChatbotEntry) :
    upsertChatbots flowParam chatbotName current bots ≠ [] ∧
    (optStr flowParam ≠ "" →
      ∃ bot ∈ upsertChatbots flowParam chatbotName current bots,
        bot.name.toLower = (optStr flowParam).toLower ∧ bot.templates = current) ∧
    (optStr flowParam = "" →
      ∃ bot0, (upsertChatbots flowParam chatbotName current bots).head? = some bot0 ∧
        bot0.templates = current) := by
  by_cases hp : optStr flowParam = ""
  · simp only [upsertChatbots, hp, ne_eq, not_true_eq_false, if_false, ite_false]
    cases bots with
    | nil =>
      exact ⟨by simp, fun hc => hc.elim, fun _ => ⟨_, rfl, rfl⟩⟩
    | cons bot0 rest =>
      exact ⟨by simp, fun hc => hc.elim, fun _ => ⟨_, rfl, rfl⟩⟩
  · simp only [upsertChatbots, hp, ne_eq, not_false_iff, if_true, ite_true]
    cases hfind : findIdxOpt
        (fun bot => bot.name.toLower == (optStr flowParam).toLower) bots with
    | none =>
      refine ⟨by simp, fun _ => ?_, fun hc => hc.elim⟩
      exact ⟨⟨optStr flowParam, current⟩, by simp, rfl, rfl⟩
    | some i =>
      have hne : bots ≠ [] := by
        intro hnil
        rw [hnil] at hfind
        simp [findIdxOpt] at hfind
      refine ⟨modifyAt_ne_nil _ i bots hne, fun _ => ?_, fun hc => hc.elim⟩
      exact upsert_found (optStr flowParam).toLower current bots i hfind

/-- The fresh default document satisfies the same wrapper property. -/
theorem freshDefaultDoc_spec (flowParam chatbotName : Option String)
    (current : List ChatbotTemplate) :
    ∃ l, (freshDefaultDoc flowParam chatbotName current).chatbots = some l ∧
      l ≠ [] ∧
      (optStr flowParam ≠ "" →
        ∃ bot ∈ l, bot.name.toLower = (optStr flowParam).toLower ∧
          bot.templates = current) ∧
      (optStr flowParam = "" →
        ∃ bot0, l.head? = some bot0 ∧ bot0.templates = current) := by
  refine ⟨_, rfl, by simp, fun hp => ?_, fun _ => ⟨_, rfl, rfl⟩⟩
  refine ⟨⟨strOr (optStr flowParam) (strOr (optStr chatbotName) "Default Bot"), current⟩,
    by simp, ?_, rfl⟩
  simp [strOr, hp]

/-- C9: whatever the existing `flow_json` (absent, unparseable, multi-chatbot
shape, single-flow shape, or unknown), `getCurrentFlowJson` produces a
multi-chatbot wrapper whose `chatbots` array is nonempty and in which the
entry named (case-insensitively) by the `flow` URL parameter — or the first
entry when the parameter is falsy — holds exactly the current canvas
templates with their node positions. -/
theorem spec_C9 (flowJson : Option (Option FlowJsonValue))
    (flowParam chatbotName : Option String) (nodes : List FlowNode) :
    ∃ l, (getCurrentFlowJson flowJson flowParam chatbotName nodes).chatbots = some l ∧
      l ≠ [] ∧
      (optStr flowParam ≠ "" →
        ∃ bot ∈ l, bot.name.toLower = (optStr flowParam).toLower ∧
          bot.templates = currentTemplates nodes) ∧
      (optStr flowParam = "" →
        ∃ bot0, l.head? = some bot0 ∧ bot0.templates = currentTemplates nodes) := by
  match flowJson with
  | none => exact freshDefaultDoc_spec flowParam chatbotName (currentTemplates nodes)
  | some none => exact freshDefaultDoc_spec flowParam chatbotName (currentTemplates nodes)
  | some (some flowData) =>
    match hc : flowData.chatbots with
    | some bots =>
      have h := upsert_spec flowParam chatbotName (currentTemplates nodes) bots
      exact ⟨_, by simp [getCurrentFlowJson, hc], h.1, h.2.1, h.2.2⟩
    | none =>
      match ht : flowData.templates with
      | some ts =>
        have h := upsert_spec flowParam chatbotName (currentTemplates nodes)
          [⟨strOr (optStr chatbotName) "Default Bot", ts⟩]
        exact ⟨_, by simp [getCurrentFlowJson, hc, ht], h.1, h.2.1, h.2.2⟩
      | none =>
        have h := freshDefaultDoc_spec flowParam chatbotName (currentTemplates nodes)
        simpa [getCurrentFlowJson, hc, ht] using h

/-- C9 witness: the wrapper property at a concrete legacy single-flow
document with a `flow` URL parameter naming a different bot. -/
theorem spec_C9_witness :
    ∃ l, (getCurrentFlowJson
        (some (some ⟨none, some [routedTemplate], some "1.0"⟩))
        (some "My Bot") (some "old") [sampleNode]).chatbots = some l ∧
      l ≠ [] ∧
      (optStr (some "My Bot") ≠ "" →
        ∃ bot ∈ l, bot.name.toLower = (optStr (some "My Bot")).toLower ∧
          bot.templates = currentTemplates [sampleNode]) ∧
      (optStr (some "My Bot") = "" →
        ∃ bot0, l.head? = some bot0 ∧ bot0.templates = currentTemplates [sampleNode]) :=
  spec_C9 (some (some ⟨none, some [routedTemplate], some "1.0"⟩))
    (some "My Bot") (some "old") [sampleNode]
